import Mathlib

/-!
Shallow embedding of `src/dockerfile_py/dockerfile.py`: a `Dockerfile` builder
that accumulates formatted directive lines and renders them by joining with the
empty string.  The builder state is the Python `self._lines` list, modelled as
`List String`; each method is a function from the current state (plus its
arguments) to the new state, or to `Except PyError Lines` when the Python code
can raise.
-/

namespace DockerfilePy

/-- The builder state: the Python attribute `self._lines : List[str]`. -/
abbrev Lines := List String

/-- Python runtime errors that the embedded code can raise. -/
inductive PyError where
  | typeError (msg : String)
  | valueError (msg : String)
deriving DecidableEq, Repr

/-- Lowercase hexadecimal digit, as used by Python's `json` escaping. -/
def hexDigit (n : Nat) : Char :=
  if n < 10 then Char.ofNat (48 + n) else Char.ofNat (87 + n)

/-- Four lowercase hex digits, as in the 04x format Python's `json` uses for
unicode escapes. -/
def toHex4 (n : Nat) : String :=
  String.mk [hexDigit (n / 4096 % 16), hexDigit (n / 256 % 16),
             hexDigit (n / 16 % 16), hexDigit (n % 16)]

/-- Escaping of one character by Python's `json.dumps` with its default
`ensure_ascii=True`: the short escapes from `ESCAPE_DCT`, `\uXXXX` for other
characters outside `0x20..0x7e` (as surrogate pairs above `0xFFFF`), and the
character itself otherwise. -/
def escapeChar (c : Char) : String :=
  if c = Char.ofNat 92 then "\\\\"
  else if c = Char.ofNat 34 then "\\\""
  else if c = Char.ofNat 8 then "\\b"
  else if c = Char.ofNat 9 then "\\t"
  else if c = Char.ofNat 10 then "\\n"
  else if c = Char.ofNat 12 then "\\f"
  else if c = Char.ofNat 13 then "\\r"
  else if c.toNat < 32 ∨ c.toNat > 126 then
    if c.toNat < 65536 then "\\u" ++ toHex4 c.toNat
    else
      "\\u" ++ toHex4 (55296 + (c.toNat - 65536) / 1024) ++
      "\\u" ++ toHex4 (56320 + (c.toNat - 65536) % 1024)
  else String.mk [c]

/-- Python `json.dumps` on a `str`: double quotes around the escaped characters. -/
def jsonString (s : String) : String :=
  "\"" ++ String.join (s.data.map escapeChar) ++ "\""

/-- Python `json.dumps` on a list of `str`: brackets, items separated by
`", "` (the default separator). -/
def jsonArray (xs : List String) : String :=
  "[" ++ String.intercalate ", " (xs.map jsonString) ++ "]"

/-- Python `list + tuple`: CPython raises
`TypeError: can only concatenate list (not "tuple") to list` for every pair of
operands, whatever their contents.  The variadic `*args` parameters of the
Python methods are tuples, so the source expressions `[command] + args`,
`[executable] + params` and `[path] + additional_paths` all hit this. -/
def listAddTuple (_l _t : List String) : Except PyError (List String) :=
  Except.error (PyError.typeError "can only concatenate list (not \"tuple\") to list")

/-- The constructor `Dockerfile.__init__(syntax, escape)`: starts empty, then
appends `# syntax: <value>` and `# escape: <value>` for the arguments given. -/
def mkDockerfile (syn esc : Option String) : Lines :=
  (match syn with
   | some s => ["# syntax: " ++ s]
   | none => []) ++
  (match esc with
   | some e => ["# escape: " ++ e]
   | none => [])

/-- Embeds `Dockerfile.__str__`: `"".join(self._lines)`. -/
def render (st : Lines) : String :=
  String.join st

/-- Embeds `Dockerfile.__str__` with the state threaded explicitly, to express that
rendering reads `self._lines` without modifying it: the result pairs the
rendered string with the (unchanged) line list. -/
def renderS (st : Lines) : String × Lines :=
  (String.join st, st)

/-- Embeds `Dockerfile.include`: `self._lines += dockerfile._lines`.  Python's
in-place `+=` on a list copies the other list's element references into
`self._lines` at call time (a snapshot); it holds no alias to the other list. -/
def includeLines (st other : Lines) : Lines :=
  st ++ other

/-- The `--chown=<owner> ` clause used by `ADD` and `COPY`. -/
def chownParam : Option String → String
  | some c => "--chown=" ++ c ++ " "
  | none => ""

/-- The `--from=<stage> ` clause used by `COPY`. -/
def fromParam : Option String → String
  | some f => "--from=" ++ f ++ " "
  | none => ""

/-- Embeds `Dockerfile.ADD`. -/
def ADD (st : Lines) (src dest : String) (chown : Option String) : Lines :=
  st ++ ["ADD " ++ chownParam chown ++ src ++ " " ++ dest]

/-- Embeds `Dockerfile.ARG`: the default value, when given, is JSON-quoted. -/
def ARG (st : Lines) (varname : String) (defaultValue : Option String) : Lines :=
  st ++ ["ARG " ++ varname ++
    (match defaultValue with
     | some d => "=" ++ jsonString d
     | none => "")]

/-- The dynamic type of the `src` argument of `COPY`: a Python `str`, a Python
`list` of `str` (the annotated type `List[str]`), or any other value — such as
the int `42` — for which both `isinstance` checks fail. -/
inductive CopySrc where
  | str (s : String)
  | list (l : List String)
  | other
deriving DecidableEq, Repr

/-- Embeds `Dockerfile.COPY`: builds the option clauses, then dispatches on the shape
of `src`; a `src` that is neither a `str` nor a `list` raises `ValueError`
before anything is appended. -/
def COPY (st : Lines) (src : CopySrc) (dest : String)
    (fromStage chown : Option String) : Except PyError Lines :=
  match src with
  | CopySrc.str s =>
      Except.ok (st ++ ["COPY " ++ fromParam fromStage ++ chownParam chown ++
        s ++ " " ++ dest])
  | CopySrc.list l =>
      Except.ok (st ++ ["COPY " ++ fromParam fromStage ++ chownParam chown ++
        jsonArray (l ++ [dest])])
  | CopySrc.other =>
      Except.error (PyError.valueError "src must be of type str or list")

/-- Embeds `Dockerfile.CMD`: shell form when no extra args; otherwise the source
evaluates `json.dumps([command] + args)` whose `list + tuple` concatenation
raises `TypeError`. -/
def CMD (st : Lines) (command : String) (args : List String) : Except PyError Lines :=
  if args.length = 0 then
    Except.ok (st ++ ["CMD " ++ command])
  else do
    let params ← listAddTuple [command] args
    Except.ok (st ++ ["CMD " ++ jsonArray params])

/-- Embeds `Dockerfile.ENTRYPOINT`: same two-form rule as `CMD`. -/
def ENTRYPOINT (st : Lines) (command : String) (args : List String) :
    Except PyError Lines :=
  if args.length = 0 then
    Except.ok (st ++ ["ENTRYPOINT " ++ command])
  else do
    let params ← listAddTuple [command] args
    Except.ok (st ++ ["ENTRYPOINT " ++ jsonArray params])

/-- Embeds `Dockerfile.ENV`: the value is always JSON-quoted. -/
def ENV (st : Lines) (varname value : String) : Lines :=
  st ++ ["ENV " ++ varname ++ "=" ++ jsonString value]

/-- The `Literal["tcp", "udp"]` protocol argument of `EXPOSE`. -/
inductive Protocol where
  | tcp
  | udp
deriving DecidableEq, Repr

/-- Python `str()` of a `Protocol` literal. -/
def Protocol.toStr : Protocol → String
  | Protocol.tcp => "tcp"
  | Protocol.udp => "udp"

/-- Embeds `Dockerfile.EXPOSE`: Python `int` ports are modelled as `Int`; `str(port)`
agrees with Lean's `toString` on `Int`. -/
def EXPOSE (st : Lines) (port : Int) (protocol : Protocol) : Lines :=
  st ++ ["EXPOSE " ++ toString port ++ "/" ++ protocol.toStr]

/-- Embeds `Dockerfile.FROM`: note there is no space between the platform clause and
the base image. -/
def FROM (st : Lines) (baseImage : String) (asImage platform : Option String) :
    Lines :=
  st ++ ["FROM " ++
    (match platform with
     | some p => "--platform=" ++ p
     | none => "") ++
    baseImage ++
    (match asImage with
     | some a => " as " ++ a
     | none => "")]

/-- Embeds `Dockerfile.LABEL`: key and value are both JSON-quoted. -/
def LABEL (st : Lines) (key value : String) : Lines :=
  st ++ ["LABEL " ++ jsonString key ++ "=" ++ jsonString value]

/-- Embeds `Dockerfile.RUN`: same two-form rule as `CMD`. -/
def RUN (st : Lines) (command : String) (args : List String) : Except PyError Lines :=
  if args.length = 0 then
    Except.ok (st ++ ["RUN " ++ command])
  else do
    let params ← listAddTuple [command] args
    Except.ok (st ++ ["RUN " ++ jsonArray params])

/-- Embeds `Dockerfile.SHELL`: the source evaluates `json.dumps([executable] + params)`
where `params` is the `*params` tuple, so the concatenation raises `TypeError`
for every call, even with zero extra parameters. -/
def SHELL (st : Lines) (executable : String) (params : List String) :
    Except PyError Lines := do
  let paths ← listAddTuple [executable] params
  Except.ok (st ++ ["SHELL " ++ jsonArray paths])

/-- Embeds `Dockerfile.USER`. -/
def USER (st : Lines) (user : String) (group : Option String) : Lines :=
  st ++ ["USER " ++ user ++
    (match group with
     | some g => ":" ++ g
     | none => "")]

/-- Embeds `Dockerfile.VOLUME`: the source evaluates
`json.dumps([path] + additional_paths)` where `additional_paths` is the
variadic tuple, so the concatenation raises `TypeError` for every call. -/
def VOLUME (st : Lines) (path : String) (additionalPaths : List String) :
    Except PyError Lines := do
  let paths ← listAddTuple [path] additionalPaths
  Except.ok (st ++ ["VOLUME " ++ jsonArray paths])

/-- Embeds `Dockerfile.WORKDIR`. -/
def WORKDIR (st : Lines) (path : String) : Lines :=
  st ++ ["WORKDIR " ++ path]

/-- One call to a directive-emitting method of the builder, with its
(well-typed) arguments. -/
inductive Op where
  | add (src dest : String) (chown : Option String)
  | arg (varname : String) (defaultValue : Option String)
  | copy (src : CopySrc) (dest : String) (fromStage chown : Option String)
  | cmd (command : String) (args : List String)
  | entrypoint (command : String) (args : List String)
  | env (varname value : String)
  | expose (port : Int) (protocol : Protocol)
  | fromImage (baseImage : String) (asImage platform : Option String)
  | label (key value : String)
  | run (command : String) (args : List String)
  | shell (executable : String) (params : List String)
  | user (u : String) (group : Option String)
  | volume (path : String) (additionalPaths : List String)
  | workdir (path : String)
deriving DecidableEq, Repr

/-- Execute one method call on the builder state. -/
def Op.apply (op : Op) (st : Lines) : Except PyError Lines :=
  match op with
  | Op.add src dest chown => Except.ok (ADD st src dest chown)
  | Op.arg varname defaultValue => Except.ok (ARG st varname defaultValue)
  | Op.copy src dest fromStage chown => COPY st src dest fromStage chown
  | Op.cmd command args => CMD st command args
  | Op.entrypoint command args => ENTRYPOINT st command args
  | Op.env varname value => Except.ok (ENV st varname value)
  | Op.expose port protocol => Except.ok (EXPOSE st port protocol)
  | Op.fromImage baseImage asImage platform =>
      Except.ok (FROM st baseImage asImage platform)
  | Op.label key value => Except.ok (LABEL st key value)
  | Op.run command args => RUN st command args
  | Op.shell executable params => SHELL st executable params
  | Op.user u group => Except.ok (USER st u group)
  | Op.volume path additionalPaths => VOLUME st path additionalPaths
  | Op.workdir path => Except.ok (WORKDIR st path)

/-- The single line a method call appends when it succeeds, or the error it
raises. -/
def Op.line (op : Op) : Except PyError String :=
  match op with
  | Op.add src dest chown =>
      Except.ok ("ADD " ++ chownParam chown ++ src ++ " " ++ dest)
  | Op.arg varname defaultValue =>
      Except.ok ("ARG " ++ varname ++
        (match defaultValue with
         | some d => "=" ++ jsonString d
         | none => ""))
  | Op.copy src dest fromStage chown =>
      (match src with
       | CopySrc.str s =>
           Except.ok ("COPY " ++ fromParam fromStage ++ chownParam chown ++
             s ++ " " ++ dest)
       | CopySrc.list l =>
           Except.ok ("COPY " ++ fromParam fromStage ++ chownParam chown ++
             jsonArray (l ++ [dest]))
       | CopySrc.other =>
           Except.error (PyError.valueError "src must be of type str or list"))
  | Op.cmd command args =>
      if args.length = 0 then Except.ok ("CMD " ++ command)
      else do
        let params ← listAddTuple [command] args
        Except.ok ("CMD " ++ jsonArray params)
  | Op.entrypoint command args =>
      if args.length = 0 then Except.ok ("ENTRYPOINT " ++ command)
      else do
        let params ← listAddTuple [command] args
        Except.ok ("ENTRYPOINT " ++ jsonArray params)
  | Op.env varname value =>
      Except.ok ("ENV " ++ varname ++ "=" ++ jsonString value)
  | Op.expose port protocol =>
      Except.ok ("EXPOSE " ++ toString port ++ "/" ++ protocol.toStr)
  | Op.fromImage baseImage asImage platform =>
      Except.ok ("FROM " ++
        (match platform with
         | some p => "--platform=" ++ p
         | none => "") ++
        baseImage ++
        (match asImage with
         | some a => " as " ++ a
         | none => ""))
  | Op.label key value =>
      Except.ok ("LABEL " ++ jsonString key ++ "=" ++ jsonString value)
  | Op.run command args =>
      if args.length = 0 then Except.ok ("RUN " ++ command)
      else do
        let params ← listAddTuple [command] args
        Except.ok ("RUN " ++ jsonArray params)
  | Op.shell executable params => do
      let paths ← listAddTuple [executable] params
      Except.ok ("SHELL " ++ jsonArray paths)
  | Op.user u group =>
      Except.ok ("USER " ++ u ++
        (match group with
         | some g => ":" ++ g
         | none => ""))
  | Op.volume path additionalPaths => do
      let paths ← listAddTuple [path] additionalPaths
      Except.ok ("VOLUME " ++ jsonArray paths)
  | Op.workdir path => Except.ok ("WORKDIR " ++ path)

/-- Execute a sequence of method calls, stopping at the first raised error. -/
def runOps (ops : List Op) (st : Lines) : Except PyError Lines :=
  match ops with
  | [] => Except.ok st
  | op :: rest => do runOps rest (← op.apply st)

/-- The lines a sequence of calls would append, or the first error raised. -/
def linesOf (ops : List Op) : Except PyError (List String) :=
  match ops with
  | [] => Except.ok []
  | op :: rest => do
      let l ← op.line
      let ls ← linesOf rest
      Except.ok (l :: ls)

/-- Every method call either raises or appends exactly the single line
`op.line` to the state. -/
theorem Op.apply_eq_line (op : Op) (st : Lines) :
    op.apply st = (op.line).map (fun l => st ++ [l]) := by
  cases op with
  | copy src dest fromStage chown => cases src <;> rfl
  | cmd command args =>
      by_cases h : args.length = 0 <;>
        simp [Op.apply, Op.line, CMD, h, listAddTuple, Except.map, bind,
          Except.bind]
  | entrypoint command args =>
      by_cases h : args.length = 0 <;>
        simp [Op.apply, Op.line, ENTRYPOINT, h, listAddTuple, Except.map, bind,
          Except.bind]
  | run command args =>
      by_cases h : args.length = 0 <;>
        simp [Op.apply, Op.line, RUN, h, listAddTuple, Except.map, bind,
          Except.bind]
  | shell executable params => rfl
  | volume path additionalPaths => rfl
  | _ => rfl

/-- Folding string concatenation from any seed splits off the seed. -/
theorem foldl_append_str (l : List String) (s : String) :
    List.foldl (fun r x => r ++ x) s l = s ++ String.join l := by
  induction l generalizing s with
  | nil => simp [String.join]
  | cons x xs ih =>
      simp only [String.join, List.foldl]
      rw [ih (s ++ x), ih ((String.mk []) ++ x), String.append_assoc]
      rfl

/-- Lemma: `String.join` distributes over list concatenation. -/
theorem join_append (a b : List String) :
    String.join (a ++ b) = String.join a ++ String.join b := by
  simp only [String.join, List.foldl_append]
  rw [foldl_append_str b]
  rfl

/-- Running a successful sequence of calls appends exactly the lines of the
individual calls, in order. -/
theorem runOps_ok (ops : List Op) (st st' : Lines)
    (h : runOps ops st = Except.ok st') :
    ∃ ls : List String, linesOf ops = Except.ok ls ∧ st' = st ++ ls := by
  induction ops generalizing st with
  | nil =>
      refine ⟨[], rfl, ?_⟩
      simp only [runOps] at h
      cases h
      simp
  | cons op rest ih =>
      simp only [runOps, bind, Except.bind] at h
      rw [Op.apply_eq_line] at h
      cases hl : op.line with
      | error e => rw [hl] at h; simp [Except.map] at h
      | ok l =>
          rw [hl] at h
          simp only [Except.map] at h
          obtain ⟨ls, hls, hst⟩ := ih (st ++ [l]) h
          refine ⟨l :: ls, ?_, by simp [hst]⟩
          simp [linesOf, bind, Except.bind, hl, hls]

/-- Claim C1: `CMD` in shell form works as claimed, but the exec form — claimed
to append `CMD ["echo", "hi"]` — instead raises `TypeError` in the source,
because `[command] + args` concatenates a list with the `*args` tuple; the same
slip affects `RUN` and `ENTRYPOINT` with extra arguments. -/
theorem cmd_run_entrypoint_exec_form_raises :
    CMD [] "echo hi" [] = Except.ok ["CMD echo hi"] ∧
    CMD [] "echo" ["hi"] =
      Except.error
        (PyError.typeError "can only concatenate list (not \"tuple\") to list") ∧
    RUN [] "make" ["install"] =
      Except.error
        (PyError.typeError "can only concatenate list (not \"tuple\") to list") ∧
    ENTRYPOINT [] "python" ["app.py"] =
      Except.error
        (PyError.typeError "can only concatenate list (not \"tuple\") to list") :=
  ⟨rfl, rfl, rfl, rfl⟩

/-- Claim C2: the claim that every non-`COPY` method is total on well-typed
arguments fails: the well-typed calls `SHELL("/bin/bash")` and
`VOLUME("/data")` both raise `TypeError`, because their `[x] + tuple`
concatenations always fail, while e.g. `ENV` does append exactly one line. -/
theorem non_copy_methods_not_total :
    SHELL [] "/bin/bash" [] =
      Except.error
        (PyError.typeError "can only concatenate list (not \"tuple\") to list") ∧
    VOLUME [] "/data" [] =
      Except.error
        (PyError.typeError "can only concatenate list (not \"tuple\") to list") ∧
    CMD [] "ls" ["-la"] =
      Except.error
        (PyError.typeError "can only concatenate list (not \"tuple\") to list") ∧
    ENV [] "PATH" "/usr/bin" = ["ENV PATH=\"/usr/bin\""] :=
  ⟨rfl, rfl, rfl, rfl⟩

/-- Claim C3: the claim that `SHELL` and `VOLUME` always append the JSON array
form fails: every call to either raises `TypeError` in the source, because
`[executable] + params` and `[path] + additional_paths` concatenate a list
with the variadic tuple, even when the tuple is empty. -/
theorem shell_volume_always_raise :
    SHELL [] "/bin/sh" ["-c"] =
      Except.error
        (PyError.typeError "can only concatenate list (not \"tuple\") to list") ∧
    SHELL [] "/usr/bin/env" [] =
      Except.error
        (PyError.typeError "can only concatenate list (not \"tuple\") to list") ∧
    VOLUME [] "/vol1" ["/vol2"] =
      Except.error
        (PyError.typeError "can only concatenate list (not \"tuple\") to list") ∧
    VOLUME [] "/logs" [] =
      Except.error
        (PyError.typeError "can only concatenate list (not \"tuple\") to list") :=
  ⟨rfl, rfl, rfl, rfl⟩

/-- Claim C4: for every sequence of successful directive calls starting from an
empty builder, `Render()` returns exactly the lines the calls appended, in call
order, joined with the empty string. -/
theorem render_is_ordered_concat (ops : List Op) (st' : Lines)
    (h : runOps ops (mkDockerfile none none) = Except.ok st') :
    ∃ ls : List String, linesOf ops = Except.ok ls ∧
      render st' = String.join ls := by
  obtain ⟨ls, hls, hst⟩ := runOps_ok ops (mkDockerfile none none) st' h
  exact ⟨ls, hls, by simp [hst, mkDockerfile, render]⟩

/-- Claim C4 witness: a concrete two-call sequence. -/
theorem render_is_ordered_concat_witness :
    ∃ ls : List String,
      linesOf [Op.fromImage "ubuntu" none none, Op.workdir "/app"] =
        Except.ok ls ∧
      render ["FROM ubuntu", "WORKDIR /app"] = String.join ls :=
  render_is_ordered_concat [Op.fromImage "ubuntu" none none, Op.workdir "/app"]
    ["FROM ubuntu", "WORKDIR /app"] rfl

/-- Claim C5: including another builder appends a snapshot, so the target's
render equals its pre-include render concatenated with the other's render at
the moment of inclusion; a later successful mutation of the other builder
(witnessed by the hypothesis) plays no part in the target's render, since
`include` copied the line values. -/
theorem include_copy_semantics (t o o2 : Lines) (op : Op)
    (_h : op.apply o = Except.ok o2) :
    render (includeLines t o) = render t ++ render o :=
  join_append t o

/-- Claim C5 witness: a concrete include followed by a mutation of the other
builder. -/
theorem include_copy_semantics_witness :
    render (includeLines ["FROM ubuntu"] ["WORKDIR /app"]) =
      render ["FROM ubuntu"] ++ render ["WORKDIR /app"] :=
  include_copy_semantics ["FROM ubuntu"] ["WORKDIR /app"]
    ["WORKDIR /app", "ENV K=\"v\""] (Op.env "K" "v") rfl

/-- Claim C6: `COPY` appends `COPY [--from=..][--chown=..]<src> <dest>` for a
single-string src and the JSON array of `src + [dest]` for a list src, with
each option clause present exactly when its own argument is given — all four
clause combinations, for both src shapes — matching the spec's two concrete
examples. -/
theorem copy_format :
    (∀ (st : Lines) (s dest : String) (l : List String),
      COPY st (CopySrc.str s) dest none none =
        Except.ok (st ++ ["COPY " ++ s ++ " " ++ dest]) ∧
      COPY st (CopySrc.list l) dest none none =
        Except.ok (st ++ ["COPY " ++ jsonArray (l ++ [dest])]) ∧
      (∀ f : String,
        COPY st (CopySrc.str s) dest (some f) none =
          Except.ok (st ++
            ["COPY --from=" ++ f ++ " " ++ s ++ " " ++ dest]) ∧
        COPY st (CopySrc.list l) dest (some f) none =
          Except.ok (st ++
            ["COPY --from=" ++ f ++ " " ++ jsonArray (l ++ [dest])])) ∧
      (∀ c : String,
        COPY st (CopySrc.str s) dest none (some c) =
          Except.ok (st ++
            ["COPY --chown=" ++ c ++ " " ++ s ++ " " ++ dest]) ∧
        COPY st (CopySrc.list l) dest none (some c) =
          Except.ok (st ++
            ["COPY --chown=" ++ c ++ " " ++ jsonArray (l ++ [dest])])) ∧
      ∀ f c : String,
        COPY st (CopySrc.str s) dest (some f) (some c) =
          Except.ok (st ++
            ["COPY --from=" ++ f ++ " --chown=" ++ c ++ " " ++ s ++ " " ++ dest]) ∧
        COPY st (CopySrc.list l) dest (some f) (some c) =
          Except.ok (st ++
            ["COPY --from=" ++ f ++ " --chown=" ++ c ++ " " ++
              jsonArray (l ++ [dest])])) ∧
    COPY [] (CopySrc.list ["a.txt", "b.txt"]) "/dest/" none none =
      Except.ok ["COPY [\"a.txt\", \"b.txt\", \"/dest/\"]"] ∧
    COPY [] (CopySrc.str "a.txt") "/dest/" none none =
      Except.ok ["COPY a.txt /dest/"] := by
  refine ⟨fun st s dest l =>
    ⟨rfl, rfl, fun f => ⟨?_, ?_⟩, fun c => ⟨?_, ?_⟩, fun f c => ⟨?_, ?_⟩⟩,
    rfl, rfl⟩ <;>
  · simp only [COPY, fromParam, chownParam, Except.ok.injEq,
      List.append_cancel_left_eq, List.cons.injEq, and_true, String.ext_iff,
      String.data_append, List.append_assoc, List.append_nil, List.nil_append]
    try rfl

/-- Claim C7: `COPY` raises exactly when `src` is neither a `str` nor a `list`
(the `CopySrc.other` case, e.g. the int `42`), with the `ValueError` raised
before the append, so an erroring call returns no mutated state — the
pre-call lines are untouched. -/
theorem copy_error_iff_bad_shape :
    (∀ (st : Lines) (src : CopySrc) (dest : String) (fs c : Option String),
      (∃ e, COPY st src dest fs c = Except.error e) ↔ src = CopySrc.other) ∧
    COPY [] CopySrc.other "/dest/" none none =
      Except.error (PyError.valueError "src must be of type str or list") := by
  refine ⟨fun st src dest fs c => ⟨fun ⟨e, he⟩ => ?_, fun h => ?_⟩, rfl⟩
  · cases src with
    | str s => exact absurd he (by simp [COPY])
    | list l => exact absurd he (by simp [COPY])
    | other => rfl
  · exact ⟨PyError.valueError "src must be of type str or list", by rw [h]; rfl⟩

/-- Claim C8: rendering reads the line list without modifying it, so rendering
twice in a row gives identical strings and every method call behaves after a
render exactly as it would have before. -/
theorem render_pure_idempotent (st : Lines) :
    (renderS st).2 = st ∧
    (renderS (renderS st).2).1 = (renderS st).1 ∧
    ∀ op : Op, op.apply (renderS st).2 = op.apply st :=
  ⟨rfl, rfl, fun _ => rfl⟩

/-- Claim C9: `FROM` appends `FROM [--platform=..]<baseImage>[ as <alias>]`,
with no space between the platform clause and the base image and each clause
present exactly when its argument is given, matching the spec's example. -/
theorem from_format :
    (∀ (st : Lines) (b : String),
      FROM st b none none = st ++ ["FROM " ++ b] ∧
      (∀ p : String,
        FROM st b none (some p) = st ++ ["FROM --platform=" ++ p ++ b]) ∧
      (∀ a : String,
        FROM st b (some a) none = st ++ ["FROM " ++ b ++ " as " ++ a]) ∧
      ∀ a p : String,
        FROM st b (some a) (some p) =
          st ++ ["FROM --platform=" ++ p ++ b ++ " as " ++ a]) ∧
    FROM [] "python:3.11" (some "builder") none =
      ["FROM python:3.11 as builder"] := by
  refine ⟨fun st b => ⟨?_, fun p => ?_, fun a => ?_, fun a p => ?_⟩, rfl⟩ <;>
  · simp only [FROM, List.append_cancel_left_eq, List.cons.injEq, and_true,
      String.ext_iff, String.data_append, List.append_assoc, List.append_nil,
      List.nil_append]
    try rfl

/-- Claim C10: a builder included into itself appends a snapshot of its own
lines (Python's `l += l` extends by a copy, doubling the list), so its render
becomes its pre-include render twice, and any later successful call appends
its single line exactly once. -/
theorem self_include_doubles (b : Lines) :
    render (includeLines b b) = render b ++ render b ∧
    ∀ (op : Op) (st' : Lines),
      op.apply (includeLines b b) = Except.ok st' →
        ∃ l, op.line = Except.ok l ∧ st' = includeLines b b ++ [l] := by
  refine ⟨join_append b b, fun op st' h => ?_⟩
  rw [Op.apply_eq_line] at h
  cases hl : op.line with
  | error e => rw [hl] at h; simp [Except.map] at h
  | ok l =>
      rw [hl] at h
      simp only [Except.map, Except.ok.injEq] at h
      exact ⟨l, rfl, h.symm⟩

/-- Claim C10 witness: a concrete self-include followed by one more call. -/
theorem self_include_doubles_witness :
    render (includeLines ["FROM ubuntu"] ["FROM ubuntu"]) =
      render ["FROM ubuntu"] ++ render ["FROM ubuntu"] ∧
    ∃ l, (Op.workdir "/app").line = Except.ok l ∧
      ["FROM ubuntu", "FROM ubuntu", "WORKDIR /app"] =
        includeLines ["FROM ubuntu"] ["FROM ubuntu"] ++ [l] :=
  ⟨(self_include_doubles ["FROM ubuntu"]).1,
   (self_include_doubles ["FROM ubuntu"]).2 (Op.workdir "/app")
     ["FROM ubuntu", "FROM ubuntu", "WORKDIR /app"] rfl⟩

end DockerfilePy
